import Mathlib

/-!
Verification of the client-authentication core (`plenum/server/client_authn.py`):
the `NaclAuthNr.authenticate` flow, the `SimpleAuthNr` in-memory identity
registry (`addClient` / `getVerkey`), and the error taxonomy
(SigningException kinds and the `CouldNotAuthenticate` catch-all).

Python dictionaries are embedded as association lists, Python truthiness as
`Val.truthy`, and exceptions as `Except` error results.  The collaborators
that live outside this module (base58 decoding, the canonical serializer,
the cryptographic verifier) are either modelled concretely or passed as
explicit function parameters, so `authenticate` is stated generically over
them exactly where the Python code treats them as injectable.
-/

deriving instance DecidableEq for Except

namespace ClientAuthn

/-- Python values appearing in client-authentication messages: `None`,
strings and integers. -/
inductive Val where
  | vnone : Val
  | vstr : String → Val
  | vint : Int → Val
deriving DecidableEq

/-- Python truthiness: `None`, `""` and `0` are falsy, everything else truthy. -/
def Val.truthy : Val → Bool
  | .vnone => false
  | .vstr s => decide (s ≠ "")
  | .vint n => decide (n ≠ 0)

/-- A message is a mapping from field names to values (a Python `Dict`). -/
abbrev Msg := List (String × Val)

/-- Dictionary lookup `msg[k]`, returning `none` where Python raises `KeyError`. -/
def mlookup (msg : Msg) (k : String) : Option Val :=
  (msg.find? (fun p => p.1 == k)).map (fun p => p.2)

/-- Python `msg.get(k)`: the stored value, or `None` when the key is absent. -/
def mget (msg : Msg) (k : String) : Val :=
  (mlookup msg k).getD .vnone

/-- The designated signature field name, `f.SIG.nm`. -/
def sigField : String := "signature"

/-- The designated identifier field name, `f.IDENTIFIER.nm`. -/
def idField : String := "identifier"

/-- The request-id field name, `f.REQ_ID.nm`. -/
def reqIdField : String := "reqId"

/-- The specific `SigningException` kinds of the protocol error taxonomy,
with the constructor arguments the Python code passes. -/
inductive SigErrKind where
  | missingSignature (ident reqId : Val)
  | emptySignature (ident reqId : Val)
  | missingIdentifier (ident reqId : Val)
  | emptyIdentifier (ident reqId : Val)
  | invalidSignatureFormat
  | unknownIdentifier (ident : Val)
  | invalidSignature
deriving DecidableEq

/-- Exceptions that may arise inside the authentication flow: a
`SigningException` of one of the specific kinds, or any other exception
raised by a collaborator (decoding library, serializer, verifier). -/
inductive Exn where
  | signing (e : SigErrKind)
  | other (tag : String)
deriving DecidableEq

/-- What `authenticate` can raise to its caller: a specific kind propagated
verbatim, or `CouldNotAuthenticate` wrapping the underlying cause. -/
inductive AuthFailure where
  | signing (e : SigErrKind)
  | couldNotAuthenticate (cause : Exn)
deriving DecidableEq

/-- Two-tier signature resolution (lines 73-81 of `client_authn.py`): a
truthy supplied argument is used as-is; otherwise the message's signature
field is extracted, `KeyError` becoming `MissingSignature` and a falsy
field value becoming `EmptySignature`. -/
def resolveSignature (msg : Msg) (signature : Val) : Except Exn Val :=
  if signature.truthy then .ok signature
  else
    match mlookup msg sigField with
    | some s =>
        if s.truthy then .ok s
        else .error (.signing (.emptySignature (mget msg idField) (mget msg reqIdField)))
    | none => .error (.signing (.missingSignature (mget msg idField) (mget msg reqIdField)))

/-- Two-tier identifier resolution (lines 82-88): same pattern; the
`MissingIdentifier` exception carries the (falsy) supplied argument and
`EmptyIdentifier` carries `None`, as in the source. -/
def resolveIdentifier (msg : Msg) (identifier : Val) : Except Exn Val :=
  if identifier.truthy then .ok identifier
  else
    match mlookup msg idField with
    | some i =>
        if i.truthy then .ok i
        else .error (.signing (.emptyIdentifier .vnone (mget msg reqIdField)))
    | none => .error (.signing (.missingIdentifier identifier (mget msg reqIdField)))

/-- The body of the outer `try` of `NaclAuthNr.authenticate` (lines 72-98),
parameterized over the collaborators the class leaves abstract or imports:
`b58` is `base58.b58decode` (any failure is turned into
`InvalidSignatureFormat` on the spot, lines 89-92), `serial` is
`self.serializeForSig`, `getVk` is the abstract `self.getVerkey`, `mkVr`
constructs the `DidVerifier` and `vrfy` is its `verify` method. -/
def authFlow {V : Type}
    (b58 : Val → Except Exn (List Nat))
    (serial : Msg → Except Exn (List Nat))
    (getVk : Val → Except Exn Val)
    (mkVr : Val → Val → Except Exn V)
    (vrfy : V → List Nat → List Nat → Except Exn Bool)
    (msg : Msg) (identifier signature : Val) : Except Exn Val :=
  match resolveSignature msg signature with
  | .error e => .error e
  | .ok sgn =>
    match resolveIdentifier msg identifier with
    | .error e => .error e
    | .ok ident =>
      match b58 sgn with
      | .error _ => .error (.signing .invalidSignatureFormat)
      | .ok sig =>
        match serial msg with
        | .error e => .error e
        | .ok ser =>
          match getVk ident with
          | .error e => .error e
          | .ok verkey =>
            match mkVr verkey ident with
            | .error e => .error e
            | .ok vr =>
              match vrfy vr sig ser with
              | .error e => .error e
              | .ok isVerified =>
                if isVerified then .ok ident
                else .error (.signing .invalidSignature)

/-- `NaclAuthNr.authenticate` (lines 68-103): runs the flow; a
`SigningException` is re-raised unchanged (`except SigningException as e:
raise e`), any other exception is wrapped (`raise CouldNotAuthenticate
from ex`); on success the resolved identifier is returned. -/
def NaclAuthNr.authenticate {V : Type}
    (b58 : Val → Except Exn (List Nat))
    (serial : Msg → Except Exn (List Nat))
    (getVk : Val → Except Exn Val)
    (mkVr : Val → Val → Except Exn V)
    (vrfy : V → List Nat → List Nat → Except Exn Bool)
    (msg : Msg) (identifier signature : Val) : Except AuthFailure Val :=
  match authFlow b58 serial getVk mkVr vrfy msg identifier signature with
  | .ok ident => .ok ident
  | .error (.signing e) => .error (.signing e)
  | .error ex => .error (.couldNotAuthenticate ex)

/-- A registration record, the dict `{"verkey": verkey, "role": role}`. -/
abbrev Record := List (String × Val)

/-- The `SimpleAuthNr.clients` registry: identifier to registration record. -/
abbrev Registry := List (Val × Record)

/-- `clients.get(identifier)`: registry lookup. -/
def rlookup (clients : Registry) (k : Val) : Option Record :=
  (clients.find? (fun p => p.1 == k)).map (fun p => p.2)

/-- Python `d.get(k)` on a registration record. -/
def rget (d : Record) (k : String) : Val :=
  ((d.find? (fun p => p.1 == k)).map (fun p => p.2)).getD .vnone

/-- The record stored by `addClient`. -/
def mkRecord (verkey role : Val) : Record :=
  [("verkey", verkey), ("role", role)]

/-- `SimpleAuthNr.addClient` (lines 127-134): unconditionally stores the
record under the identifier, overwriting any previous binding (a duplicate
only logs a diagnostic, it never fails or changes the effect). -/
def SimpleAuthNr.addClient (clients : Registry) (identifier verkey role : Val) : Registry :=
  (identifier, mkRecord verkey role) :: clients.filter (fun p => p.1 != identifier)

/-- Whether `addClient` would log the "client already added" diagnostic. -/
def SimpleAuthNr.addClientWarns (clients : Registry) (identifier : Val) : Bool :=
  (rlookup clients identifier).isSome

/-- `SimpleAuthNr.getVerkey` (lines 136-140): `nym = clients.get(identifier)`;
a falsy `nym` (absent, hence `None`, or an empty dict) raises
`UnknownIdentifier`; otherwise `nym.get("verkey")` is returned. -/
def SimpleAuthNr.getVerkey (clients : Registry) (identifier : Val) : Except Exn Val :=
  match rlookup clients identifier with
  | none => .error (.signing (.unknownIdentifier identifier))
  | some nym =>
    if nym.isEmpty then .error (.signing (.unknownIdentifier identifier))
    else .ok (rget nym "verkey")

/-- A sequence of `addClient` calls applied in order. -/
def applyAdds : Registry → List (Val × Val × Val) → Registry
  | clients, [] => clients
  | clients, op :: rest => applyAdds (SimpleAuthNr.addClient clients op.1 op.2.1 op.2.2) rest

/-- The base58 alphabet used by the `base58` library. -/
def b58Alphabet : List Char :=
  "123456789ABCDEFGHJKLMNPQRSTUVWXYZabcdefghijkmnopqrstuvwxyz".toList

/-- Index of a character in a character list, `none` when absent. -/
def charIndex : List Char → Char → Option Nat
  | [], _ => none
  | c :: rest, ch =>
    if c == ch then some 0
    else (charIndex rest ch).map (fun i => i + 1)

/-- The digit value of a base58 character, `none` for a character outside
the alphabet. -/
def b58Digit (ch : Char) : Option Nat := charIndex b58Alphabet ch

/-- Horner evaluation of a base58 digit string; fails on the first
character outside the alphabet. -/
def b58NatAux : List Char → Nat → Option Nat
  | [], acc => some acc
  | c :: rest, acc =>
    match b58Digit c with
    | none => none
    | some d => b58NatAux rest (acc * 58 + d)

/-- Big-endian byte expansion of a natural number (fuel-driven so that it
reduces by iota; the fuel `n` always suffices since `n / 256 < n`). -/
def natToBytesAux : Nat → Nat → List Nat
  | 0, _ => []
  | _ + 1, 0 => []
  | fuel + 1, n + 1 => natToBytesAux fuel ((n + 1) / 256) ++ [(n + 1) % 256]

/-- Big-endian byte expansion of a natural number. -/
def natToBytes (n : Nat) : List Nat := natToBytesAux n n

/-- Count of leading `'1'` characters (each encodes a leading zero byte). -/
def countLeadingOnes : List Char → Nat
  | [] => 0
  | c :: rest => if c == '1' then countLeadingOnes rest + 1 else 0

/-- `base58.b58decode` on a string: fails exactly when some character lies
outside the base58 alphabet. -/
def b58decodeStr (s : String) : Option (List Nat) :=
  match b58NatAux s.toList 0 with
  | none => none
  | some n => some (List.replicate (countLeadingOnes s.toList) 0 ++ natToBytes n)

/-- `base58.b58decode` applied to a resolved signature value: a non-string
raises a library error, a malformed string raises a decoding error; both
surface as (non-signing) exceptions that line 92 maps to
`InvalidSignatureFormat`. -/
def b58decodeVal (v : Val) : Except Exn (List Nat) :=
  match v with
  | .vstr s =>
    match b58decodeStr s with
    | some b => .ok b
    | none => .error (.other "b58decode")
  | _ => .error (.other "b58type")

/-- Byte encoding of a single value, used by the canonical serializer. -/
def encodeVal : Val → List Nat
  | .vnone => [0]
  | .vstr s => 1 :: (s.toUTF8.toList.map (fun b => b.toNat))
  | .vint n => [2, if n < 0 then 1 else 0] ++ natToBytes n.natAbs

/-- Insertion of a field into a key-sorted field list. -/
def insertSorted (p : String × Val) : List (String × Val) → List (String × Val)
  | [] => [p]
  | q :: rest => if p.1 ≤ q.1 then p :: q :: rest else q :: insertSorted p rest

/-- Fields sorted by key, so the encoding is independent of field order. -/
def sortFields (l : List (String × Val)) : List (String × Val) :=
  l.foldr insertSorted []

/-- The message with its signature field removed. -/
def stripSig (msg : Msg) : Msg := msg.filter (fun p => p.1 != sigField)

/-- Modelled from the spec: the Canonical Serializer (an external
collaborator; its implementation is not under `src/`).  A deterministic
byte encoding of a field mapping that depends only on the key-value
content, not on field order: fields are sorted by key and each key-value
pair is encoded with separators. -/
def canonicalSerialize (fields : Msg) : List Nat :=
  (sortFields fields).foldr
    (fun p acc =>
      (p.1.toUTF8.toList.map (fun b => b.toNat)) ++ [255] ++ encodeVal p.2 ++ [254] ++ acc)
    []

/-- Modelled from the spec: `serializeForSig` from `plenum.common.signing`
(imported at line 15 of `client_authn.py` but not under `src/`).  Per the
spec it obtains canonical signed-bytes for the message "with signature
field excluded": it strips the signature field and canonicalizes the rest. -/
def serializeForSig (msg : Msg) : List Nat := canonicalSerialize (stripSig msg)

/-- `NaclAuthNr.serializeForSig` (lines 113-114): delegates to the module
level `serializeForSig`. -/
def NaclAuthNr.serializeForSig (msg : Msg) : List Nat := ClientAuthn.serializeForSig msg

/-- `SimpleAuthNr.authenticate`: the inherited `NaclAuthNr.authenticate`
instantiated with the concrete collaborators — the real base58 decoder,
the canonical serializer, the in-memory registry's `getVerkey`, and a
`DidVerifier` modelled (from the spec) as the pair of verkey and
identifier whose `verify` method is the opaque cryptographic primitive
`cv`. -/
def simpleAuthenticate (cv : Val → Val → List Nat → List Nat → Bool)
    (clients : Registry) (msg : Msg) (identifier signature : Val) :
    Except AuthFailure Val :=
  NaclAuthNr.authenticate b58decodeVal
    (fun m => .ok (NaclAuthNr.serializeForSig m))
    (SimpleAuthNr.getVerkey clients)
    (fun vk ident => Except.ok (vk, ident))
    (fun vr sig ser => .ok (cv vr.1 vr.2 sig ser))
    msg identifier signature

/-- State-passing rendering of `SimpleAuthNr.getVerkey`: the method only
reads `self.clients`, so the registry component is returned unchanged. -/
def SimpleAuthNr.getVerkeyS (clients : Registry) (identifier : Val) :
    Except Exn Val × Registry :=
  (SimpleAuthNr.getVerkey clients identifier, clients)

/-- State-passing rendering of the authentication flow over the registry:
every step threads the registry it received. -/
def authFlowS (cv : Val → Val → List Nat → List Nat → Bool)
    (clients : Registry) (msg : Msg) (identifier signature : Val) :
    Except Exn Val × Registry :=
  match resolveSignature msg signature with
  | .error e => (.error e, clients)
  | .ok sgn =>
    match resolveIdentifier msg identifier with
    | .error e => (.error e, clients)
    | .ok ident =>
      match b58decodeVal sgn with
      | .error _ => (.error (.signing .invalidSignatureFormat), clients)
      | .ok sig =>
        match SimpleAuthNr.getVerkeyS clients ident with
        | (.error e, cl) => (.error e, cl)
        | (.ok verkey, cl) =>
          if cv verkey ident sig (NaclAuthNr.serializeForSig msg) then (.ok ident, cl)
          else (.error (.signing .invalidSignature), cl)

/-- State-passing rendering of `SimpleAuthNr`'s `authenticate`: the
try/except boundary, threading the registry. -/
def simpleAuthenticateS (cv : Val → Val → List Nat → List Nat → Bool)
    (clients : Registry) (msg : Msg) (identifier signature : Val) :
    Except AuthFailure Val × Registry :=
  match authFlowS cv clients msg identifier signature with
  | (.ok ident, cl) => (.ok ident, cl)
  | (.error (.signing e), cl) => (.error (.signing e), cl)
  | (.error ex, cl) => (.error (.couldNotAuthenticate ex), cl)

theorem mlookup_cons_ne (a : String) (v : Val) (msg : Msg) (k : String)
    (h : (a == k) = false) : mlookup ((a, v) :: msg) k = mlookup msg k := by
  simp [mlookup, List.find?_cons, h]

theorem find?_filter_ne (l : Registry) (i k : Val) (h : k ≠ i) :
    (l.filter (fun p => p.1 != i)).find? (fun p => p.1 == k)
      = l.find? (fun p => p.1 == k) := by
  induction l with
  | nil => rfl
  | cons q rest ih =>
    by_cases hqi : q.1 = i
    · have h1 : (q.1 != i) = false := by simp [hqi]
      have h2 : (q.1 == k) = false := by
        simp [hqi]
        exact fun hh => h hh.symm
      simp [List.filter_cons, List.find?_cons, h1, h2, ih]
    · have h1 : (q.1 != i) = true := by simp [hqi]
      by_cases hqk : q.1 = k
      · have h2 : (q.1 == k) = true := by simp [hqk]
        simp [List.filter_cons, List.find?_cons, h1, h2]
      · have h2 : (q.1 == k) = false := by simp [hqk]
        simp [List.filter_cons, List.find?_cons, h1, h2, ih]

theorem rlookup_addClient_self (clients : Registry) (i vk r : Val) :
    rlookup (SimpleAuthNr.addClient clients i vk r) i = some (mkRecord vk r) := by
  simp [rlookup, SimpleAuthNr.addClient, List.find?_cons]

theorem rlookup_addClient_other (clients : Registry) (i vk r k : Val) (h : k ≠ i) :
    rlookup (SimpleAuthNr.addClient clients i vk r) k = rlookup clients k := by
  have h2 : (i == k) = false := by
    simp
    exact fun hh => h hh.symm
  simp [rlookup, SimpleAuthNr.addClient, List.find?_cons, h2,
    find?_filter_ne clients i k h]

theorem getVerkey_addClient_self (clients : Registry) (i vk r : Val) :
    SimpleAuthNr.getVerkey (SimpleAuthNr.addClient clients i vk r) i = .ok vk := by
  simp [SimpleAuthNr.getVerkey, rlookup_addClient_self, mkRecord, rget, List.find?]

theorem good_addClient (clients : Registry) (i vk r k : Val)
    (h : ∃ v s, rlookup clients k = some (mkRecord v s)) :
    ∃ v s, rlookup (SimpleAuthNr.addClient clients i vk r) k = some (mkRecord v s) := by
  by_cases hk : k = i
  · subst hk
    exact ⟨vk, r, rlookup_addClient_self clients k vk r⟩
  · obtain ⟨v, s, hv⟩ := h
    exact ⟨v, s, by rw [rlookup_addClient_other clients i vk r k hk, hv]⟩

theorem good_applyAdds (ops : List (Val × Val × Val)) (k : Val) :
    ∀ clients : Registry, (∃ v s, rlookup clients k = some (mkRecord v s)) →
      ∃ v s, rlookup (applyAdds clients ops) k = some (mkRecord v s) := by
  induction ops with
  | nil => exact fun _ h => h
  | cons op rest ih =>
    intro clients h
    exact ih _ (good_addClient clients op.1 op.2.1 op.2.2 k h)

theorem good_applyAdds_of_mem (ops : List (Val × Val × Val)) (k : Val) :
    ∀ clients : Registry, k ∈ ops.map (fun op => op.1) →
      ∃ v s, rlookup (applyAdds clients ops) k = some (mkRecord v s) := by
  induction ops with
  | nil =>
    intro clients h
    simp at h
  | cons op rest ih =>
    intro clients h
    by_cases hm : k ∈ rest.map (fun op => op.1)
    · exact ih _ hm
    · have hk : k = op.1 := by
        simp only [List.map_cons, List.mem_cons] at h
        rcases h with h | h
        · exact h
        · exact absurd h hm
      refine good_applyAdds rest k _ ⟨op.2.1, op.2.2, ?_⟩
      rw [hk]
      exact rlookup_addClient_self clients op.1 op.2.1 op.2.2

theorem rlookup_applyAdds_of_notMem (ops : List (Val × Val × Val)) (k : Val) :
    ∀ clients : Registry, k ∉ ops.map (fun op => op.1) → rlookup clients k = none →
      rlookup (applyAdds clients ops) k = none := by
  induction ops with
  | nil => exact fun _ _ h0 => h0
  | cons op rest ih =>
    intro clients h h0
    simp only [List.map_cons, List.mem_cons] at h
    push_neg at h
    refine ih _ h.2 ?_
    rw [rlookup_addClient_other clients op.1 op.2.1 op.2.2 k h.1, h0]

theorem getVerkey_of_good (clients : Registry) (k : Val)
    (h : ∃ v s, rlookup clients k = some (mkRecord v s)) :
    ∃ v, SimpleAuthNr.getVerkey clients k = .ok v := by
  obtain ⟨v, s, hv⟩ := h
  refine ⟨v, ?_⟩
  simp [SimpleAuthNr.getVerkey, hv, mkRecord, rget, List.find?]

theorem getVerkey_of_none (clients : Registry) (k : Val)
    (h : rlookup clients k = none) :
    SimpleAuthNr.getVerkey clients k = .error (.signing (.unknownIdentifier k)) := by
  simp [SimpleAuthNr.getVerkey, h]

theorem resolveSignature_truthy (msg : Msg) (s : Val) (h : s.truthy = true) :
    resolveSignature msg s = .ok s := by
  simp [resolveSignature, h]

theorem resolveIdentifier_truthy (msg : Msg) (i : Val) (h : i.truthy = true) :
    resolveIdentifier msg i = .ok i := by
  simp [resolveIdentifier, h]

theorem resolveSignature_extract (msg : Msg) (s v : Val) (hs : s.truthy = false)
    (hv : mlookup msg sigField = some v) (ht : v.truthy = true) :
    resolveSignature msg s = .ok v := by
  simp [resolveSignature, hs, hv, ht]

theorem resolveIdentifier_extract (msg : Msg) (i v : Val) (hi : i.truthy = false)
    (hv : mlookup msg idField = some v) (ht : v.truthy = true) :
    resolveIdentifier msg i = .ok v := by
  simp [resolveIdentifier, hi, hv, ht]

theorem resolveIdentifier_ok_falsy (msg : Msg) (i r : Val) (hi : i.truthy = false)
    (h : resolveIdentifier msg i = .ok r) : mlookup msg idField = some r := by
  unfold resolveIdentifier at h
  rw [hi] at h
  simp only [Bool.false_eq_true, if_false] at h
  cases hm : mlookup msg idField with
  | none => simp only [hm] at h; simp at h
  | some v =>
    simp only [hm] at h
    by_cases ht : v.truthy = true
    · simp [ht] at h
      rw [h]
    · simp [ht] at h

theorem authFlow_ok_resolveIdentifier {V : Type}
    (b58 : Val → Except Exn (List Nat)) (serial : Msg → Except Exn (List Nat))
    (getVk : Val → Except Exn Val) (mkVr : Val → Val → Except Exn V)
    (vrfy : V → List Nat → List Nat → Except Exn Bool)
    (msg : Msg) (idA sigA r : Val)
    (h : authFlow b58 serial getVk mkVr vrfy msg idA sigA = .ok r) :
    resolveIdentifier msg idA = .ok r := by
  unfold authFlow at h
  cases h1 : resolveSignature msg sigA with
  | error e => simp only [h1] at h; simp at h
  | ok sgn =>
    simp only [h1] at h
    cases h2 : resolveIdentifier msg idA with
    | error e => simp only [h2] at h; simp at h
    | ok ident =>
      simp only [h2] at h
      cases h3 : b58 sgn with
      | error e => simp only [h3] at h; simp at h
      | ok sig =>
        simp only [h3] at h
        cases h4 : serial msg with
        | error e => simp only [h4] at h; simp at h
        | ok ser =>
          simp only [h4] at h
          cases h5 : getVk ident with
          | error e => simp only [h5] at h; simp at h
          | ok vk =>
            simp only [h5] at h
            cases h6 : mkVr vk ident with
            | error e => simp only [h6] at h; simp at h
            | ok vr =>
              simp only [h6] at h
              cases h7 : vrfy vr sig ser with
              | error e => simp only [h7] at h; simp at h
              | ok b =>
                simp only [h7] at h
                cases b with
                | false => simp at h
                | true =>
                  simp at h
                  rw [h]

theorem authenticate_ok_resolveIdentifier {V : Type}
    (b58 : Val → Except Exn (List Nat)) (serial : Msg → Except Exn (List Nat))
    (getVk : Val → Except Exn Val) (mkVr : Val → Val → Except Exn V)
    (vrfy : V → List Nat → List Nat → Except Exn Bool)
    (msg : Msg) (idA sigA r : Val)
    (h : NaclAuthNr.authenticate b58 serial getVk mkVr vrfy msg idA sigA = .ok r) :
    resolveIdentifier msg idA = .ok r := by
  unfold NaclAuthNr.authenticate at h
  cases hf : authFlow b58 serial getVk mkVr vrfy msg idA sigA with
  | ok i =>
    rw [hf] at h
    simp at h
    exact h ▸ authFlow_ok_resolveIdentifier b58 serial getVk mkVr vrfy msg idA sigA i hf
  | error e =>
    rw [hf] at h
    cases e with
    | signing e2 => simp at h
    | other t => simp at h

theorem authFlowS_eq (cv : Val → Val → List Nat → List Nat → Bool)
    (clients : Registry) (msg : Msg) (idA sigA : Val) :
    authFlowS cv clients msg idA sigA
      = (authFlow b58decodeVal (fun m => .ok (NaclAuthNr.serializeForSig m))
          (SimpleAuthNr.getVerkey clients) (fun vk ident => Except.ok (vk, ident))
          (fun vr sig ser => .ok (cv vr.1 vr.2 sig ser)) msg idA sigA, clients) := by
  unfold authFlowS authFlow SimpleAuthNr.getVerkeyS
  cases h1 : resolveSignature msg sigA with
  | error e => simp [h1]
  | ok sgn =>
    simp only [h1]
    cases h2 : resolveIdentifier msg idA with
    | error e => simp [h2]
    | ok ident =>
      simp only [h2]
      cases h3 : b58decodeVal sgn with
      | error e => simp [h3]
      | ok sig =>
        simp only [h3]
        cases h4 : SimpleAuthNr.getVerkey clients ident with
        | error e => simp [h4]
        | ok vk =>
          simp only [h4]
          cases h5 : cv vk ident sig (NaclAuthNr.serializeForSig msg) with
          | false => simp [h5]
          | true => simp [h5]

theorem resolveIdentifier_cons_sigField (msg : Msg) (v i : Val) :
    resolveIdentifier ((sigField, v) :: msg) i = resolveIdentifier msg i := by
  have h1 : (sigField == idField) = false := by decide
  have h2 : (sigField == reqIdField) = false := by decide
  simp only [resolveIdentifier, mget, mlookup_cons_ne _ _ _ _ h1,
    mlookup_cons_ne _ _ _ _ h2]

theorem stripSig_cons_sigField (msg : Msg) (v : Val) :
    stripSig ((sigField, v) :: msg) = stripSig msg := by
  simp [stripSig, List.filter_cons]

/-- C1: during `authenticate` the Canonical Serializer is invoked on the
message with the signature field excluded: the signed payload
`NaclAuthNr.serializeForSig msg` equals the canonical serialization of the
message with its signature field removed, the payload is unchanged by the
presence of a signature field, and consequently `authenticate` (with a
supplied non-empty signature, so resolution does not consult the field)
has the same outcome with or without a signature field in the message. -/
theorem C1_signed_payload_excludes_signature_field
    (cv : Val → Val → List Nat → List Nat → Bool) (clients : Registry)
    (msg : Msg) (v idArg sigArg : Val) (hsig : sigArg.truthy = true) :
    NaclAuthNr.serializeForSig msg = canonicalSerialize (stripSig msg) ∧
    NaclAuthNr.serializeForSig ((sigField, v) :: msg) = NaclAuthNr.serializeForSig msg ∧
    simpleAuthenticate cv clients ((sigField, v) :: msg) idArg sigArg
      = simpleAuthenticate cv clients msg idArg sigArg := by
  have hser : NaclAuthNr.serializeForSig ((sigField, v) :: msg)
      = NaclAuthNr.serializeForSig msg := by
    simp [NaclAuthNr.serializeForSig, serializeForSig, stripSig_cons_sigField]
  refine ⟨rfl, hser, ?_⟩
  simp only [simpleAuthenticate, NaclAuthNr.authenticate, authFlow,
    resolveSignature_truthy ((sigField, v) :: msg) sigArg hsig,
    resolveSignature_truthy msg sigArg hsig,
    resolveIdentifier_cons_sigField, hser]

/-- C1 witness: the theorem at a concrete message, signature-field value
and supplied signature. -/
theorem C1_signed_payload_excludes_signature_field_witness :
    NaclAuthNr.serializeForSig [("identifier", Val.vstr "A"), ("op", Val.vstr "x")]
      = canonicalSerialize (stripSig [("identifier", Val.vstr "A"), ("op", Val.vstr "x")]) ∧
    NaclAuthNr.serializeForSig
        ((sigField, Val.vstr "zz") :: [("identifier", Val.vstr "A"), ("op", Val.vstr "x")])
      = NaclAuthNr.serializeForSig [("identifier", Val.vstr "A"), ("op", Val.vstr "x")] ∧
    simpleAuthenticate (fun _ _ _ _ => true) []
        ((sigField, Val.vstr "zz") :: [("identifier", Val.vstr "A"), ("op", Val.vstr "x")])
        Val.vnone (Val.vstr "1")
      = simpleAuthenticate (fun _ _ _ _ => true) []
        [("identifier", Val.vstr "A"), ("op", Val.vstr "x")] Val.vnone (Val.vstr "1") :=
  C1_signed_payload_excludes_signature_field (fun _ _ _ _ => true) []
    [("identifier", Val.vstr "A"), ("op", Val.vstr "x")] (Val.vstr "zz") Val.vnone
    (Val.vstr "1") (by decide)

/-- C2: `authenticate` resolves the signature and the identifier by the
two-tier rule and fails with exactly the matching kind: no non-empty
supplied signature and no field gives `MissingSignature`; a present but
falsy field gives `EmptySignature`; likewise `MissingIdentifier` and
`EmptyIdentifier` for the identifier. -/
theorem C2_two_tier_resolution_errors {V : Type}
    (b58 : Val → Except Exn (List Nat)) (serial : Msg → Except Exn (List Nat))
    (getVk : Val → Except Exn Val) (mkVr : Val → Val → Except Exn V)
    (vrfy : V → List Nat → List Nat → Except Exn Bool)
    (msg : Msg) (idArg sigArg : Val) :
    (sigArg.truthy = false → mlookup msg sigField = none →
      NaclAuthNr.authenticate b58 serial getVk mkVr vrfy msg idArg sigArg
        = .error (.signing (.missingSignature (mget msg idField) (mget msg reqIdField)))) ∧
    (∀ v, sigArg.truthy = false → mlookup msg sigField = some v → v.truthy = false →
      NaclAuthNr.authenticate b58 serial getVk mkVr vrfy msg idArg sigArg
        = .error (.signing (.emptySignature (mget msg idField) (mget msg reqIdField)))) ∧
    (∀ sgn, resolveSignature msg sigArg = .ok sgn → idArg.truthy = false →
      mlookup msg idField = none →
      NaclAuthNr.authenticate b58 serial getVk mkVr vrfy msg idArg sigArg
        = .error (.signing (.missingIdentifier idArg (mget msg reqIdField)))) ∧
    (∀ sgn v, resolveSignature msg sigArg = .ok sgn → idArg.truthy = false →
      mlookup msg idField = some v → v.truthy = false →
      NaclAuthNr.authenticate b58 serial getVk mkVr vrfy msg idArg sigArg
        = .error (.signing (.emptyIdentifier .vnone (mget msg reqIdField)))) := by
  refine ⟨fun h1 h2 => ?_, fun v h1 h2 h3 => ?_, fun sgn hs h1 h2 => ?_,
    fun sgn v hs h1 h2 h3 => ?_⟩
  · simp [NaclAuthNr.authenticate, authFlow, resolveSignature, h1, h2]
  · simp [NaclAuthNr.authenticate, authFlow, resolveSignature, h1, h2, h3]
  · simp [NaclAuthNr.authenticate, authFlow, hs, resolveIdentifier, h1, h2]
  · simp [NaclAuthNr.authenticate, authFlow, hs, resolveIdentifier, h1, h2, h3]

/-- C2 witness: all four failure kinds exercised at concrete messages with
trivial collaborators. -/
theorem C2_two_tier_resolution_errors_witness :
    NaclAuthNr.authenticate (fun _ => Except.ok []) (fun _ => Except.ok [])
      (fun _ => Except.ok Val.vnone) (fun _ _ => Except.ok ()) (fun _ _ _ => Except.ok true)
      [] Val.vnone Val.vnone
      = .error (.signing (.missingSignature .vnone .vnone)) ∧
    NaclAuthNr.authenticate (fun _ => Except.ok []) (fun _ => Except.ok [])
      (fun _ => Except.ok Val.vnone) (fun _ _ => Except.ok ()) (fun _ _ _ => Except.ok true)
      [("signature", Val.vstr "")] Val.vnone Val.vnone
      = .error (.signing (.emptySignature .vnone .vnone)) ∧
    NaclAuthNr.authenticate (fun _ => Except.ok []) (fun _ => Except.ok [])
      (fun _ => Except.ok Val.vnone) (fun _ _ => Except.ok ()) (fun _ _ _ => Except.ok true)
      [("signature", Val.vstr "1")] Val.vnone Val.vnone
      = .error (.signing (.missingIdentifier .vnone .vnone)) ∧
    NaclAuthNr.authenticate (fun _ => Except.ok []) (fun _ => Except.ok [])
      (fun _ => Except.ok Val.vnone) (fun _ _ => Except.ok ()) (fun _ _ _ => Except.ok true)
      [("signature", Val.vstr "1"), ("identifier", Val.vstr "")] Val.vnone Val.vnone
      = .error (.signing (.emptyIdentifier .vnone .vnone)) := by
  refine ⟨?_, ?_, ?_, ?_⟩
  · exact (C2_two_tier_resolution_errors _ _ _ _ _ [] Val.vnone Val.vnone).1
      (by decide) (by decide)
  · exact (C2_two_tier_resolution_errors _ _ _ _ _ [("signature", Val.vstr "")]
      Val.vnone Val.vnone).2.1 (Val.vstr "") (by decide) (by decide) (by decide)
  · exact (C2_two_tier_resolution_errors _ _ _ _ _ [("signature", Val.vstr "1")]
      Val.vnone Val.vnone).2.2.1 (Val.vstr "1") (by decide) (by decide) (by decide)
  · exact (C2_two_tier_resolution_errors _ _ _ _ _
      [("signature", Val.vstr "1"), ("identifier", Val.vstr "")] Val.vnone Val.vnone).2.2.2
      (Val.vstr "1") (Val.vstr "") (by decide) (by decide) (by decide) (by decide)

/-- C3: a `SigningException` raised inside the flow propagates to the
caller unchanged; any other exception is wrapped into
`CouldNotAuthenticate`; and `CouldNotAuthenticate` never masks a specific
kind. -/
theorem C3_propagation_policy {V : Type}
    (b58 : Val → Except Exn (List Nat)) (serial : Msg → Except Exn (List Nat))
    (getVk : Val → Except Exn Val) (mkVr : Val → Val → Except Exn V)
    (vrfy : V → List Nat → List Nat → Except Exn Bool)
    (msg : Msg) (idArg sigArg : Val) :
    (∀ e : SigErrKind,
      authFlow b58 serial getVk mkVr vrfy msg idArg sigArg = .error (.signing e) ↔
      NaclAuthNr.authenticate b58 serial getVk mkVr vrfy msg idArg sigArg
        = .error (.signing e)) ∧
    (∀ s : String,
      authFlow b58 serial getVk mkVr vrfy msg idArg sigArg = .error (.other s) →
      NaclAuthNr.authenticate b58 serial getVk mkVr vrfy msg idArg sigArg
        = .error (.couldNotAuthenticate (.other s))) ∧
    (∀ ex : Exn,
      NaclAuthNr.authenticate b58 serial getVk mkVr vrfy msg idArg sigArg
        = .error (.couldNotAuthenticate ex) → ∀ e : SigErrKind, ex ≠ .signing e) := by
  unfold NaclAuthNr.authenticate
  cases hf : authFlow b58 serial getVk mkVr vrfy msg idArg sigArg with
  | ok i =>
    exact ⟨fun e => by simp, fun s hs => by simp at hs, fun ex hex e => by simp at hex⟩
  | error ex =>
    cases ex with
    | signing e2 =>
      exact ⟨fun e => by simp, fun s hs => by simp at hs, fun ex hex e => by simp at hex⟩
    | other t =>
      refine ⟨fun e => by simp, fun s hs => ?_, fun ex hex e => ?_⟩
      · simp at hs
        subst hs
        rfl
      · simp at hex
        subst hex
        simp


/-- C3 witness: a serializer fault at a concrete message is wrapped into
`CouldNotAuthenticate`. -/
theorem C3_propagation_policy_witness :
    NaclAuthNr.authenticate (fun _ => Except.ok [0])
      (fun _ => Except.error (Exn.other "boom"))
      (fun _ => Except.ok Val.vnone) (fun _ _ => Except.ok ()) (fun _ _ _ => Except.ok true)
      [("signature", Val.vstr "1"), ("identifier", Val.vstr "A")] Val.vnone Val.vnone
      = .error (.couldNotAuthenticate (.other "boom")) :=
  (C3_propagation_policy _ _ _ _ _
    [("signature", Val.vstr "1"), ("identifier", Val.vstr "A")] Val.vnone Val.vnone).2.1
    "boom" (by decide)

/-- C4: for an identifier never passed to `addClient`, `getVerkey` fails
with `UnknownIdentifier` (a distinguished failure, not a default return),
and an `authenticate` call that resolves to such an identifier fails with
`UnknownIdentifier` as the underlying error. -/
theorem C4_unregistered_identifier_unknown (ops : List (Val × Val × Val)) (identifier : Val)
    (hmem : identifier ∉ ops.map (fun op => op.1)) :
    SimpleAuthNr.getVerkey (applyAdds [] ops) identifier
      = .error (.signing (.unknownIdentifier identifier)) ∧
    (∀ (cv : Val → Val → List Nat → List Nat → Bool) (msg : Msg) (sigArg sgn : Val)
        (sig : List Nat), identifier.truthy = true →
      resolveSignature msg sigArg = .ok sgn → b58decodeVal sgn = .ok sig →
      simpleAuthenticate cv (applyAdds [] ops) msg identifier sigArg
        = .error (.signing (.unknownIdentifier identifier))) := by
  have hnone : rlookup (applyAdds [] ops) identifier = none :=
    rlookup_applyAdds_of_notMem ops identifier [] hmem rfl
  have hgv := getVerkey_of_none _ _ hnone
  refine ⟨hgv, fun cv msg sigArg sgn sig hid hs hb => ?_⟩
  simp [simpleAuthenticate, NaclAuthNr.authenticate, authFlow, hs,
    resolveIdentifier_truthy msg identifier hid, hb, hgv]

/-- C4 witness: identifier "B" was never registered; both `getVerkey` and
a full `authenticate` call report `UnknownIdentifier`. -/
theorem C4_unregistered_identifier_unknown_witness :
    SimpleAuthNr.getVerkey (applyAdds [] [(Val.vstr "A", Val.vstr "K", Val.vnone)])
      (Val.vstr "B") = .error (.signing (.unknownIdentifier (Val.vstr "B"))) ∧
    simpleAuthenticate (fun _ _ _ _ => true)
      (applyAdds [] [(Val.vstr "A", Val.vstr "K", Val.vnone)])
      [("signature", Val.vstr "1")] (Val.vstr "B") Val.vnone
      = .error (.signing (.unknownIdentifier (Val.vstr "B"))) := by
  refine ⟨(C4_unregistered_identifier_unknown [(Val.vstr "A", Val.vstr "K", Val.vnone)]
      (Val.vstr "B") (by decide)).1, ?_⟩
  exact (C4_unregistered_identifier_unknown [(Val.vstr "A", Val.vstr "K", Val.vnone)]
      (Val.vstr "B") (by decide)).2 _ _ _ (Val.vstr "1") [0]
      (by decide) (by decide) (by decide)

/-- C5: when the resolved signature fails base58 decoding, `authenticate`
fails with `InvalidSignatureFormat`. -/
theorem C5_malformed_base58_invalid_signature_format
    (cv : Val → Val → List Nat → List Nat → Bool) (clients : Registry)
    (msg : Msg) (idArg sigArg sgn i : Val)
    (hs : resolveSignature msg sigArg = .ok sgn)
    (hi : resolveIdentifier msg idArg = .ok i)
    (hb : ∃ ex, b58decodeVal sgn = .error ex) :
    simpleAuthenticate cv clients msg idArg sigArg
      = .error (.signing .invalidSignatureFormat) := by
  obtain ⟨ex, hex⟩ := hb
  simp [simpleAuthenticate, NaclAuthNr.authenticate, authFlow, hs, hi, hex]

/-- C5 witness: "0!" contains characters outside the base58 alphabet. -/
theorem C5_malformed_base58_invalid_signature_format_witness :
    simpleAuthenticate (fun _ _ _ _ => true) []
      [("signature", Val.vstr "0!"), ("identifier", Val.vstr "A")] Val.vnone Val.vnone
      = .error (.signing .invalidSignatureFormat) :=
  C5_malformed_base58_invalid_signature_format (fun _ _ _ _ => true) []
    [("signature", Val.vstr "0!"), ("identifier", Val.vstr "A")] Val.vnone Val.vnone
    (Val.vstr "0!") (Val.vstr "A") (by decide) (by decide)
    ⟨Exn.other "b58decode", by decide⟩

/-- C6: once resolution, decoding and key lookup succeed, the verifier's
boolean result decides the outcome: a negative result fails with
`InvalidSignature`, a positive result returns the resolved identifier. -/
theorem C6_verifier_result_decides
    (cv : Val → Val → List Nat → List Nat → Bool) (clients : Registry)
    (msg : Msg) (idArg sigArg sgn i vk : Val) (sig : List Nat)
    (hs : resolveSignature msg sigArg = .ok sgn)
    (hi : resolveIdentifier msg idArg = .ok i)
    (hb : b58decodeVal sgn = .ok sig)
    (hv : SimpleAuthNr.getVerkey clients i = .ok vk) :
    (cv vk i sig (NaclAuthNr.serializeForSig msg) = false →
      simpleAuthenticate cv clients msg idArg sigArg
        = .error (.signing .invalidSignature)) ∧
    (cv vk i sig (NaclAuthNr.serializeForSig msg) = true →
      simpleAuthenticate cv clients msg idArg sigArg = .ok i) := by
  constructor <;> intro hcv <;>
    simp [simpleAuthenticate, NaclAuthNr.authenticate, authFlow, hs, hi, hb, hv, hcv]

/-- C6 witness: a rejecting verifier yields `InvalidSignature`, an
accepting verifier yields the resolved identifier. -/
theorem C6_verifier_result_decides_witness :
    simpleAuthenticate (fun _ _ _ _ => false)
      [(Val.vstr "A", mkRecord (Val.vstr "K") Val.vnone)]
      [("signature", Val.vstr "1"), ("identifier", Val.vstr "A")] Val.vnone Val.vnone
      = .error (.signing .invalidSignature) ∧
    simpleAuthenticate (fun _ _ _ _ => true)
      [(Val.vstr "A", mkRecord (Val.vstr "K") Val.vnone)]
      [("signature", Val.vstr "1"), ("identifier", Val.vstr "A")] Val.vnone Val.vnone
      = .ok (Val.vstr "A") := by
  constructor
  · exact (C6_verifier_result_decides (fun _ _ _ _ => false)
      [(Val.vstr "A", mkRecord (Val.vstr "K") Val.vnone)]
      [("signature", Val.vstr "1"), ("identifier", Val.vstr "A")] Val.vnone Val.vnone
      (Val.vstr "1") (Val.vstr "A") (Val.vstr "K") [0]
      (by decide) (by decide) (by decide) (by decide)).1 rfl
  · exact (C6_verifier_result_decides (fun _ _ _ _ => true)
      [(Val.vstr "A", mkRecord (Val.vstr "K") Val.vnone)]
      [("signature", Val.vstr "1"), ("identifier", Val.vstr "A")] Val.vnone Val.vnone
      (Val.vstr "1") (Val.vstr "A") (Val.vstr "K") [0]
      (by decide) (by decide) (by decide) (by decide)).2 rfl

/-- C7: `addClient` is an unconditional, never-failing upsert: afterwards
the registry maps the identifier to the new record and `getVerkey` returns
the new verkey, any previous record being replaced, while all other
identifiers are untouched. -/
theorem C7_addClient_upsert (clients : Registry) (identifier verkey role : Val) :
    rlookup (SimpleAuthNr.addClient clients identifier verkey role) identifier
      = some (mkRecord verkey role) ∧
    SimpleAuthNr.getVerkey (SimpleAuthNr.addClient clients identifier verkey role) identifier
      = .ok verkey ∧
    (∀ k, k ≠ identifier →
      rlookup (SimpleAuthNr.addClient clients identifier verkey role) k = rlookup clients k) :=
  ⟨rlookup_addClient_self clients identifier verkey role,
   getVerkey_addClient_self clients identifier verkey role,
   fun k hk => rlookup_addClient_other clients identifier verkey role k hk⟩

/-- C7 witness: re-registration of "A" replaces its record; an unrelated
key "A" is untouched by a registration of "B". -/
theorem C7_addClient_upsert_witness :
    rlookup (SimpleAuthNr.addClient [(Val.vstr "A", mkRecord (Val.vstr "K1") Val.vnone)]
        (Val.vstr "A") (Val.vstr "K2") Val.vnone) (Val.vstr "A")
      = some (mkRecord (Val.vstr "K2") Val.vnone) ∧
    SimpleAuthNr.getVerkey (SimpleAuthNr.addClient [] (Val.vstr "B") (Val.vstr "K") Val.vnone)
      (Val.vstr "B") = .ok (Val.vstr "K") ∧
    rlookup (SimpleAuthNr.addClient [(Val.vstr "A", mkRecord (Val.vstr "K1") Val.vnone)]
        (Val.vstr "B") (Val.vstr "K") Val.vnone) (Val.vstr "A")
      = rlookup [(Val.vstr "A", mkRecord (Val.vstr "K1") Val.vnone)] (Val.vstr "A") :=
  ⟨(C7_addClient_upsert [(Val.vstr "A", mkRecord (Val.vstr "K1") Val.vnone)]
      (Val.vstr "A") (Val.vstr "K2") Val.vnone).1,
   (C7_addClient_upsert [] (Val.vstr "B") (Val.vstr "K") Val.vnone).2.1,
   (C7_addClient_upsert [(Val.vstr "A", mkRecord (Val.vstr "K1") Val.vnone)]
      (Val.vstr "B") (Val.vstr "K") Val.vnone).2.2 (Val.vstr "A") (by decide)⟩

/-- C8: `authenticate` never mutates the registry: in the state-passing
rendering the registry after the call is the one before it, whatever the
outcome, and the returned result agrees with the pure rendering. -/
theorem C8_authenticate_preserves_registry
    (cv : Val → Val → List Nat → List Nat → Bool) (clients : Registry)
    (msg : Msg) (idArg sigArg : Val) :
    (simpleAuthenticateS cv clients msg idArg sigArg).2 = clients ∧
    (simpleAuthenticateS cv clients msg idArg sigArg).1
      = simpleAuthenticate cv clients msg idArg sigArg := by
  unfold simpleAuthenticateS simpleAuthenticate NaclAuthNr.authenticate
  rw [authFlowS_eq]
  cases authFlow b58decodeVal (fun m => Except.ok (NaclAuthNr.serializeForSig m))
      (SimpleAuthNr.getVerkey clients) (fun vk ident => Except.ok (vk, ident))
      (fun vr sig ser => Except.ok (cv vr.1 vr.2 sig ser)) msg idArg sigArg with
  | ok i => exact ⟨rfl, rfl⟩
  | error ex =>
    cases ex with
    | signing e => exact ⟨rfl, rfl⟩
    | other t => exact ⟨rfl, rfl⟩

/-- C9: supplied non-empty identifier and signature arguments override
extraction from the message; on success the resolved identifier is
returned (the supplied one when non-empty, else the extracted field
value); a supplied but falsy argument does not override, extraction is
attempted instead. -/
theorem C9_override_and_return
    (cv : Val → Val → List Nat → List Nat → Bool) (clients : Registry)
    (msg : Msg) (idArg sigArg : Val) :
    (sigArg.truthy = true → resolveSignature msg sigArg = .ok sigArg) ∧
    (idArg.truthy = true → resolveIdentifier msg idArg = .ok idArg) ∧
    (idArg.truthy = true → ∀ r, simpleAuthenticate cv clients msg idArg sigArg = .ok r →
      r = idArg) ∧
    (idArg.truthy = false → ∀ r, simpleAuthenticate cv clients msg idArg sigArg = .ok r →
      mlookup msg idField = some r) ∧
    (sigArg.truthy = false → ∀ v, mlookup msg sigField = some v → v.truthy = true →
      resolveSignature msg sigArg = .ok v) ∧
    (idArg.truthy = false → ∀ v, mlookup msg idField = some v → v.truthy = true →
      resolveIdentifier msg idArg = .ok v) := by
  refine ⟨resolveSignature_truthy msg sigArg, resolveIdentifier_truthy msg idArg,
    fun hid r hr => ?_, fun hid r hr => ?_,
    fun hs v hv ht => resolveSignature_extract msg sigArg v hs hv ht,
    fun hi v hv ht => resolveIdentifier_extract msg idArg v hi hv ht⟩
  · have h1 := authenticate_ok_resolveIdentifier _ _ _ _ _ msg idArg sigArg r hr
    rw [resolveIdentifier_truthy msg idArg hid] at h1
    injection h1 with h2
    exact h2.symm
  · exact resolveIdentifier_ok_falsy msg idArg r hid
      (authenticate_ok_resolveIdentifier _ _ _ _ _ msg idArg sigArg r hr)

/-- C9 witness: each conjunct at a concrete registry, message and
arguments. -/
theorem C9_override_and_return_witness :
    resolveSignature [] (Val.vstr "S") = .ok (Val.vstr "S") ∧
    resolveIdentifier [] (Val.vstr "B") = .ok (Val.vstr "B") ∧
    Val.vstr "B" = Val.vstr "B" ∧
    mlookup [("signature", Val.vstr "1"), ("identifier", Val.vstr "A")] idField
      = some (Val.vstr "A") ∧
    resolveSignature [("signature", Val.vstr "1")] Val.vnone = .ok (Val.vstr "1") ∧
    resolveIdentifier [("identifier", Val.vstr "A")] (Val.vstr "") = .ok (Val.vstr "A") := by
  refine ⟨(C9_override_and_return (fun _ _ _ _ => true) [] [] Val.vnone
      (Val.vstr "S")).1 (by decide),
    (C9_override_and_return (fun _ _ _ _ => true) [] [] (Val.vstr "B") Val.vnone).2.1
      (by decide),
    (C9_override_and_return (fun _ _ _ _ => true)
      [(Val.vstr "B", mkRecord (Val.vstr "K") Val.vnone)]
      [("signature", Val.vstr "1")] (Val.vstr "B") Val.vnone).2.2.1 (by decide)
      (Val.vstr "B") (by decide),
    (C9_override_and_return (fun _ _ _ _ => true)
      [(Val.vstr "A", mkRecord (Val.vstr "K") Val.vnone)]
      [("signature", Val.vstr "1"), ("identifier", Val.vstr "A")] Val.vnone Val.vnone).2.2.2.1
      (by decide) (Val.vstr "A") (by decide),
    (C9_override_and_return (fun _ _ _ _ => true) [] [("signature", Val.vstr "1")]
      Val.vnone Val.vnone).2.2.2.2.1 (by decide) (Val.vstr "1") (by decide) (by decide),
    (C9_override_and_return (fun _ _ _ _ => true) []
      [("identifier", Val.vstr "A")] (Val.vstr "") Val.vnone).2.2.2.2.2 (by decide)
      (Val.vstr "A") (by decide) (by decide)⟩

/-- C10: `getVerkey` raises `UnknownIdentifier` exactly for identifiers
never registered: any `addClient`-registered identifier — even with a
falsy verkey such as `None` or the empty string — has a non-empty stored
record, so `getVerkey` returns the stored verkey instead of raising. -/
theorem C10_falsy_verkey_registered_known (ops : List (Val × Val × Val)) (identifier : Val) :
    (∀ (clients : Registry) (verkey role : Val),
      SimpleAuthNr.getVerkey (SimpleAuthNr.addClient clients identifier verkey role) identifier
        = .ok verkey) ∧
    (identifier ∈ ops.map (fun op => op.1) →
      ∃ vk, SimpleAuthNr.getVerkey (applyAdds [] ops) identifier = .ok vk) ∧
    (identifier ∉ ops.map (fun op => op.1) →
      SimpleAuthNr.getVerkey (applyAdds [] ops) identifier
        = .error (.signing (.unknownIdentifier identifier))) :=
  ⟨fun clients verkey role => getVerkey_addClient_self clients identifier verkey role,
   fun hmem => getVerkey_of_good _ _ (good_applyAdds_of_mem ops identifier [] hmem),
   fun hmem => getVerkey_of_none _ _ (rlookup_applyAdds_of_notMem ops identifier [] hmem rfl)⟩

/-- C10 witness: registering "A" with verkey `None` and with the empty
string still makes "A" known to `getVerkey`; "B" stays unknown. -/
theorem C10_falsy_verkey_registered_known_witness :
    SimpleAuthNr.getVerkey (SimpleAuthNr.addClient [] (Val.vstr "A") Val.vnone Val.vnone)
      (Val.vstr "A") = .ok Val.vnone ∧
    (∃ vk, SimpleAuthNr.getVerkey (applyAdds [] [(Val.vstr "A", Val.vstr "", Val.vnone)])
      (Val.vstr "A") = .ok vk) ∧
    SimpleAuthNr.getVerkey (applyAdds [] [(Val.vstr "A", Val.vstr "", Val.vnone)])
      (Val.vstr "B") = .error (.signing (.unknownIdentifier (Val.vstr "B"))) :=
  ⟨(C10_falsy_verkey_registered_known [] (Val.vstr "A")).1 [] Val.vnone Val.vnone,
   (C10_falsy_verkey_registered_known [(Val.vstr "A", Val.vstr "", Val.vnone)]
      (Val.vstr "A")).2.1 (by decide),
   (C10_falsy_verkey_registered_known [(Val.vstr "A", Val.vstr "", Val.vnone)]
      (Val.vstr "B")).2.2 (by decide)⟩

end ClientAuthn
